import Mathlib

/-!
Shallow embedding of the order-lifecycle / authorization / statistics core of
the food-ordering backend, together with theorems checking the specification's
claims against it.

Conventions of the embedding:
* statuses and roles are the loosely-typed strings of the source;
* monetary amounts are exact rationals (the source uses JS numbers);
* the Prisma store is a record of lists; `findUnique` becomes `List.find?`,
  `update` becomes a map that replaces the matching row, and an `update` or
  `delete` on a missing row throws, which the controllers catch and turn into
  a 500 response (modelled by returning the 500 response directly);
* every controller returns its HTTP response together with the store after
  its writes (reads-only controllers return their payload instead).

Controllers whose TypeScript source is present (`menuItemController.ts`,
which also holds the driver/delivery controller) are translated directly.
The orderController, orderManagementController and restaurantStatsController
sources are not in the repository snapshot; those operations are modelled
from the specification, with every branch that their unit tests
(`orderController.test.ts`, `setup.ts`, `restaurantStatsController.test.ts`)
pin — response codes, error strings, and store-call arguments — reproduced
exactly as the tests assert them.
-/

namespace Food

/-- Authenticated actor attached to a request by the auth middleware (`req.user`). -/
structure Actor where
  id : String
  role : String
deriving DecidableEq

/-- Calendar date; the source stores JS `Date` values and compares them with `gte`. -/
structure SDate where
  year : Nat
  month : Nat
  day : Nat
deriving DecidableEq

/-- Lexicographic comparison of calendar dates, the order JS `Date` comparison induces. -/
def sdBLE (a b : SDate) : Bool :=
  Nat.blt a.year b.year ||
    (a.year == b.year &&
      (Nat.blt a.month b.month || (a.month == b.month && Nat.ble a.day b.day)))

/-- Restaurant row (fields the core logic reads). -/
structure Restaurant where
  id : String
  ownerId : String
deriving DecidableEq

/-- Order row (fields the core logic reads). -/
structure Order where
  id : String
  customerId : String
  restaurantId : String
  status : String
  total : Rat
  createdAt : SDate
  actualDeliveryTime : Option Nat
deriving DecidableEq

/-- OrderItem row: a line-item snapshot owned by its order. -/
structure OrderItemRow where
  orderId : String
  menuItemId : String
  quantity : Nat
  subtotal : Rat
deriving DecidableEq

/-- MenuItem row (fields the core logic reads). -/
structure MenuItem where
  id : String
  restaurantId : String
  name : String
  price : Rat
  image : Option String
  isAvailable : Bool
deriving DecidableEq

/-- Delivery row; `driverFee` is nullable (`Float?` in the Prisma schema). -/
structure Delivery where
  id : String
  orderId : String
  driverId : String
  status : String
  pickupTime : Option Nat
  deliveryTime : Option Nat
  driverFee : Option Rat
deriving DecidableEq

/-- User row (driver-relevant fields). -/
structure User where
  id : String
  role : String
  driverStatus : String
  totalDeliveries : Nat
  totalEarnings : Rat
deriving DecidableEq

/-- The entity store: one list per table. -/
structure Store where
  restaurants : List Restaurant
  orders : List Order
  orderItems : List OrderItemRow
  menuItems : List MenuItem
  deliveries : List Delivery
  users : List User
deriving DecidableEq

/-- HTTP-level response: status code, success flag, error and message payloads. -/
structure Resp where
  code : Nat
  success : Bool
  error : Option String
  message : Option String
deriving DecidableEq

/-- Successful 200 response. -/
def respOk (msg : String) : Resp := ⟨200, true, none, some msg⟩

/-- Successful 201 response. -/
def respCreated (msg : String) : Resp := ⟨201, true, none, some msg⟩

/-- Client-error 400 response. -/
def resp400 (msg : String) : Resp := ⟨400, false, some msg, none⟩

/-- Unauthenticated 401 response; the error string is shared by every controller. -/
def resp401 : Resp := ⟨401, false, some "Not authenticated", none⟩

/-- Forbidden 403 response. -/
def resp403 (msg : String) : Resp := ⟨403, false, some msg, none⟩

/-- Not-found 404 response. -/
def resp404 (msg : String) : Resp := ⟨404, false, some msg, none⟩

/-- Internal-error 500 response produced by each controller's catch block. -/
def resp500 (msg : String) : Resp := ⟨500, false, some msg, none⟩

/-- prisma.order.findUnique on the id. -/
def findOrder (s : Store) (id : String) : Option Order :=
  s.orders.find? (fun o => o.id == id)

/-- prisma.restaurant.findUnique on the id. -/
def findRestaurant (s : Store) (id : String) : Option Restaurant :=
  s.restaurants.find? (fun r => r.id == id)

/-- prisma.menuItem.findUnique on the id. -/
def findMenuItem (s : Store) (id : String) : Option MenuItem :=
  s.menuItems.find? (fun m => m.id == id)

/-- prisma.delivery.findUnique on the id. -/
def findDelivery (s : Store) (id : String) : Option Delivery :=
  s.deliveries.find? (fun d => d.id == id)

/-- prisma.user.findUnique on the id. -/
def findUser (s : Store) (id : String) : Option User :=
  s.users.find? (fun u => u.id == id)

/-- The delivery row attached to an order (the `delivery` include on an order). -/
def findDeliveryByOrder (s : Store) (orderId : String) : Option Delivery :=
  s.deliveries.find? (fun d => d.orderId == orderId)

/-- prisma.order.update: replace the matching row. -/
def replaceOrder (s : Store) (id : String) (o : Order) : Store :=
  { s with orders := s.orders.map (fun x => if x.id == id then o else x) }

/-- prisma.delivery.update: replace the matching row. -/
def replaceDelivery (s : Store) (id : String) (d : Delivery) : Store :=
  { s with deliveries := s.deliveries.map (fun x => if x.id == id then d else x) }

/-- prisma.user.update: replace the matching row. -/
def replaceUser (s : Store) (id : String) (u : User) : Store :=
  { s with users := s.users.map (fun x => if x.id == id then u else x) }

/-- `acceptDelivery` of the driver controller, translated from the source.
The controller checks authentication only; it then unconditionally updates the
delivery to `picked_up` with a fresh `pickupTime` and marks the acting user's
`driverStatus` as `busy`.  A missing delivery or user row makes the
corresponding prisma update throw, which the catch block turns into a 500;
a write that already happened before the throw persists. -/
def acceptDelivery (user : Option Actor) (id : String) (now : Nat) (s : Store) :
    Resp × Store :=
  match user with
  | none => (resp401, s)
  | some u =>
    match findDelivery s id with
    | none => (resp500 "Failed to accept delivery", s)
    | some d =>
      let s1 := replaceDelivery s id { d with status := "picked_up", pickupTime := some now }
      match findUser s1 u.id with
      | none => (resp500 "Failed to accept delivery", s1)
      | some v =>
        (respOk "Delivery accepted successfully",
          replaceUser s1 u.id { v with driverStatus := "busy" })

/-- `updateDeliveryStatus` of the driver controller, translated from the source.
The controller checks authentication only, then writes whatever status was
requested; `in_transit` overwrites `pickupTime` with the current time and
`delivered` stamps `deliveryTime`.  When the requested status is `delivered`
it additionally updates the acting user: `driverStatus` to `online`,
`totalDeliveries` incremented by one and `totalEarnings` incremented by
`driverFee || 0` of the updated delivery row. -/
def updateDeliveryStatus (user : Option Actor) (id status : String) (now : Nat)
    (s : Store) : Resp × Store :=
  match user with
  | none => (resp401, s)
  | some u =>
    match findDelivery s id with
    | none => (resp500 "Failed to update delivery status", s)
    | some d =>
      let d1 : Delivery :=
        { d with
          status := status
          pickupTime := if status == "in_transit" then some now else d.pickupTime
          deliveryTime := if status == "delivered" then some now else d.deliveryTime }
      let s1 := replaceDelivery s id d1
      if status == "delivered" then
        match findUser s1 u.id with
        | none => (resp500 "Failed to update delivery status", s1)
        | some v =>
          (respOk "Delivery status updated successfully",
            replaceUser s1 u.id
              { v with
                driverStatus := "online"
                totalDeliveries := v.totalDeliveries + 1
                totalEarnings := v.totalEarnings + d1.driverFee.getD 0 })
      else
        (respOk "Delivery status updated successfully", s1)

/-- Request body of `createMenuItem` (the fields the core logic uses). -/
structure MenuItemInput where
  restaurantId : String
  name : String
  price : Rat
  image : Option String
deriving DecidableEq

/-- `createMenuItem` translated from `menuItemController.ts`: authentication,
then restaurant lookup (404), then the ownership check
`userRole !== admin && restaurant.ownerId !== userId` (403), then the insert.
The database generates the new row's id; it is passed in as `newId`. -/
def createMenuItem (user : Option Actor) (input : MenuItemInput) (newId : String)
    (s : Store) : Resp × Store :=
  match user with
  | none => (resp401, s)
  | some u =>
    match findRestaurant s input.restaurantId with
    | none => (resp404 "Restaurant not found", s)
    | some r =>
      if u.role != "admin" && r.ownerId != u.id then
        (resp403 "Not authorized to create menu items for this restaurant", s)
      else
        (respCreated "Menu item created successfully",
          { s with menuItems := s.menuItems ++
              [{ id := newId, restaurantId := input.restaurantId, name := input.name,
                 price := input.price, image := input.image, isAvailable := true }] })

/-- Partial-update body of `updateMenuItem`; `none` is an absent field.  The
source applies `name` and `image` only when truthy (so an empty string is
ignored), and `price`/`isAvailable` whenever not undefined. -/
structure MenuItemPatch where
  name : Option String
  price : Option Rat
  image : Option String
  isAvailable : Option Bool
deriving DecidableEq

/-- Field-wise application of a patch, following the source's truthiness rules. -/
def applyMenuPatch (p : MenuItemPatch) (m : MenuItem) : MenuItem :=
  { m with
    name := match p.name with
      | some n => if n == "" then m.name else n
      | none => m.name
    price := p.price.getD m.price
    image := match p.image with
      | some i => if i == "" then m.image else some i
      | none => m.image
    isAvailable := p.isAvailable.getD m.isAvailable }

/-- `updateMenuItem` translated from `menuItemController.ts`: authentication,
menu-item lookup with its restaurant (404 when the item is missing, 500 when
the owning restaurant row cannot be resolved), ownership check (403), then
the field-wise update. -/
def updateMenuItem (user : Option Actor) (id : String) (patch : MenuItemPatch)
    (s : Store) : Resp × Store :=
  match user with
  | none => (resp401, s)
  | some u =>
    match findMenuItem s id with
    | none => (resp404 "Menu item not found", s)
    | some m =>
      match findRestaurant s m.restaurantId with
      | none => (resp500 "Failed to update menu item", s)
      | some r =>
        if u.role != "admin" && r.ownerId != u.id then
          (resp403 "Not authorized to update this menu item", s)
        else
          (respOk "Menu item updated successfully",
            { s with menuItems :=
                s.menuItems.map (fun x => if x.id == id then applyMenuPatch patch x else x) })

/-- `deleteMenuItem` translated from `menuItemController.ts`: same guard
sequence as `updateMenuItem`, then the row is deleted. -/
def deleteMenuItem (user : Option Actor) (id : String) (s : Store) : Resp × Store :=
  match user with
  | none => (resp401, s)
  | some u =>
    match findMenuItem s id with
    | none => (resp404 "Menu item not found", s)
    | some m =>
      match findRestaurant s m.restaurantId with
      | none => (resp500 "Failed to delete menu item", s)
      | some r =>
        if u.role != "admin" && r.ownerId != u.id then
          (resp403 "Not authorized to delete this menu item", s)
        else
          (respOk "Menu item deleted successfully",
            { s with menuItems := s.menuItems.filter (fun x => x.id != id) })

/-- Modelled from the spec: the transition table of the Order Lifecycle Engine
(section 4.1), used by the status-update controllers whose TypeScript source
is not in the snapshot.  Forward edges
pending → confirmed → preparing → ready_for_pickup → out_for_delivery →
delivered, plus cancelled from every non-terminal state; `delivered` and
`cancelled` have no outbound edges.  The unit tests pin the edges
pending → confirmed, pending → cancelled, ready_for_pickup →
out_for_delivery, out_for_delivery → delivered, and the rejection of
delivered → confirmed. -/
def validNext (cur : String) : List String :=
  if cur == "pending" then ["confirmed", "cancelled"]
  else if cur == "confirmed" then ["preparing", "cancelled"]
  else if cur == "preparing" then ["ready_for_pickup", "cancelled"]
  else if cur == "ready_for_pickup" then ["out_for_delivery", "cancelled"]
  else if cur == "out_for_delivery" then ["delivered", "cancelled"]
  else []

/-- Modelled from the spec: `acceptOrder` of the orderManagementController,
whose source file is not in the snapshot.  Every branch is pinned by its unit
tests in `setup.ts`: 401 before any lookup, order lookup with its restaurant
(404), ownership guard admitting admins (403 "Not authorized"), the pending
guard (400 "Only pending orders can be accepted"), then the update to
`confirmed`. -/
def acceptOrder (user : Option Actor) (id : String) (s : Store) : Resp × Store :=
  match user with
  | none => (resp401, s)
  | some u =>
    match findOrder s id with
    | none => (resp404 "Order not found", s)
    | some o =>
      match findRestaurant s o.restaurantId with
      | none => (resp500 "Failed to accept order", s)
      | some r =>
        if u.role != "admin" && r.ownerId != u.id then
          (resp403 "Not authorized", s)
        else if o.status != "pending" then
          (resp400 "Only pending orders can be accepted", s)
        else
          (respOk "Order accepted successfully",
            replaceOrder s id { o with status := "confirmed" })

/-- Modelled from the spec: `rejectOrder` of the orderManagementController,
whose source file is not in the snapshot.  Same shape as `acceptOrder` and
equally pinned by the `setup.ts` tests, but the pending guard fails with
"Only pending orders can be rejected" and the update writes `cancelled`. -/
def rejectOrder (user : Option Actor) (id : String) (s : Store) : Resp × Store :=
  match user with
  | none => (resp401, s)
  | some u =>
    match findOrder s id with
    | none => (resp404 "Order not found", s)
    | some o =>
      match findRestaurant s o.restaurantId with
      | none => (resp500 "Failed to reject order", s)
      | some r =>
        if u.role != "admin" && r.ownerId != u.id then
          (resp403 "Not authorized", s)
        else if o.status != "pending" then
          (resp400 "Only pending orders can be rejected", s)
        else
          (respOk "Order rejected successfully",
            replaceOrder s id { o with status := "cancelled" })

/-- Modelled from the spec: `updateOrderStatus` of the
orderManagementController, whose source file is not in the snapshot.  The
`setup.ts` tests pin 401 before any lookup, 404 on a missing order, the
ownership guard admitting admins (403 "Not authorized to update this order")
and the plain status write on success; the transition validation follows the
Order Lifecycle Engine contract of spec section 4.1. -/
def mgmtUpdateOrderStatus (user : Option Actor) (id reqStatus : String)
    (s : Store) : Resp × Store :=
  match user with
  | none => (resp401, s)
  | some u =>
    match findOrder s id with
    | none => (resp404 "Order not found", s)
    | some o =>
      match findRestaurant s o.restaurantId with
      | none => (resp500 "Failed to update order status", s)
      | some r =>
        if u.role != "admin" && r.ownerId != u.id then
          (resp403 "Not authorized to update this order", s)
        else if !(validNext o.status).contains reqStatus then
          (resp400 ("Cannot change status from " ++ o.status ++ " to " ++ reqStatus), s)
        else
          (respOk "Order status updated successfully",
            replaceOrder s id { o with status := reqStatus })

/-- Modelled from the spec: `updateOrderStatus` of the orderController, whose
source file is not in the snapshot.  Its unit tests pin 401 before any
lookup, 404 on a missing order, authorization for the owning restaurant's
owner, the assigned driver and admins (403 "Not authorized to update this
order" otherwise), rejection of an illegal edge with
"Cannot change status from <cur> to <req>" (400), and the stamping of
`actualDeliveryTime` when the new status is `delivered`. -/
def updateOrderStatus (user : Option Actor) (id reqStatus : String) (now : Nat)
    (s : Store) : Resp × Store :=
  match user with
  | none => (resp401, s)
  | some u =>
    match findOrder s id with
    | none => (resp404 "Order not found", s)
    | some o =>
      match findRestaurant s o.restaurantId with
      | none => (resp500 "Failed to update order status", s)
      | some r =>
        let isDriver :=
          u.role == "driver" &&
            (match findDeliveryByOrder s o.id with
             | some d => d.driverId == u.id
             | none => false)
        if u.role != "admin" && r.ownerId != u.id && !isDriver then
          (resp403 "Not authorized to update this order", s)
        else if !(validNext o.status).contains reqStatus then
          (resp400 ("Cannot change status from " ++ o.status ++ " to " ++ reqStatus), s)
        else
          (respOk "Order status updated successfully",
            replaceOrder s id
              { o with
                status := reqStatus
                actualDeliveryTime :=
                  if reqStatus == "delivered" then some now else o.actualDeliveryTime })

/-- Modelled from the spec: `assignDriver` of the orderController, whose
source file is not in the snapshot.  Its unit test pins the behaviour: no
authentication or authorization check, `prisma.order.update` invoked directly
with `status: confirmed` (so a missing order surfaces as the catch-block 500
"Failed to assign driver"), then a delivery row is created with status
`assigned` for the given driver.  The database generates the delivery id,
passed in as `newDeliveryId`. -/
def assignDriver (orderId driverId newDeliveryId : String) (s : Store) :
    Resp × Store :=
  match findOrder s orderId with
  | none => (resp500 "Failed to assign driver", s)
  | some o =>
    let s1 := replaceOrder s orderId { o with status := "confirmed" }
    (respOk "Driver assigned successfully",
      { s1 with deliveries := s1.deliveries ++
          [{ id := newDeliveryId, orderId := orderId, driverId := driverId,
             status := "assigned", pickupTime := none, deliveryTime := none,
             driverFee := none }] })

/-- Modelled from the spec: `cancelOrder` of the orderController, whose source
file is not in the snapshot.  Its unit tests pin 401 before any lookup, 404
on a missing order, authorization for the order's customer or an admin (403
"Not authorized to cancel this order"), refusal with
"Cannot cancel order that is out for delivery or delivered" (400), and the
update to `cancelled` from `pending` or `confirmed`.  The guard follows spec
section 4.1: cancellation is permitted only while the status is `pending` or
`confirmed` (the tests exercise exactly pending, confirmed, out_for_delivery
and delivered). -/
def cancelOrder (user : Option Actor) (id : String) (s : Store) : Resp × Store :=
  match user with
  | none => (resp401, s)
  | some u =>
    match findOrder s id with
    | none => (resp404 "Order not found", s)
    | some o =>
      if u.role != "admin" && o.customerId != u.id then
        (resp403 "Not authorized to cancel this order", s)
      else if !(o.status == "pending" || o.status == "confirmed") then
        (resp400 "Cannot cancel order that is out for delivery or delivered", s)
      else
        (respOk "Order cancelled successfully",
          replaceOrder s id { o with status := "cancelled" })

/-- Sum of a rational-valued field over a list of rows. -/
def sumBy {α : Type} (f : α → Rat) (l : List α) : Rat :=
  l.foldr (fun x acc => f x + acc) 0

/-- Start of the calendar month of a date (`new Date(y, m, 1)` in the source). -/
def startOfMonth (d : SDate) : SDate := ⟨d.year, d.month, 1⟩

/-- Start of the calendar year of a date (`new Date(y, 0, 1)` in the source). -/
def startOfYear (d : SDate) : SDate := ⟨d.year, 1, 1⟩

/-- Order items belonging to delivered orders of the restaurant: the rows the
popular-items groupBy ranges over (`where: order: restaurantId, status:
delivered`). -/
def deliveredItems (s : Store) (rid : String) : List OrderItemRow :=
  s.orderItems.filter (fun it =>
    match findOrder s it.orderId with
    | some o => o.restaurantId == rid && o.status == "delivered"
    | none => false)

/-- Summed quantity of a menu item over the grouped rows (`_sum.quantity`). -/
def totalQty (items : List OrderItemRow) (mid : String) : Nat :=
  ((items.filter (fun it => it.menuItemId == mid)).map (fun it => it.quantity)).sum

/-- Summed subtotal of a menu item over the grouped rows (`_sum.subtotal`). -/
def totalSub (items : List OrderItemRow) (mid : String) : Rat :=
  sumBy (fun it => it.subtotal) (items.filter (fun it => it.menuItemId == mid))

/-- Distinct group keys in first-appearance order; the groupBy key set. -/
def dedupKeys (l : List String) : List String :=
  l.foldl (fun acc k => if acc.contains k then acc else acc ++ [k]) []

/-- Descending-by-quantity comparison used to model the groupBy
`orderBy: _sum.quantity: desc`.  The store's ordering of tied keys is
unspecified; the model keeps tied keys stable in first-appearance order. -/
def qtyGE (items : List OrderItemRow) (a b : String) : Prop :=
  totalQty items b ≤ totalQty items a

instance (items : List OrderItemRow) : DecidableRel (qtyGE items) :=
  fun x y => Nat.decLe (totalQty items y) (totalQty items x)

/-- Top five group keys as the source's groupBy query produces them:
distinct menuItemIds ordered by summed quantity descending, `take: 5`. -/
def popularKeys (s : Store) (rid : String) : List String :=
  (List.insertionSort (qtyGE (deliveredItems s rid))
    (dedupKeys ((deliveredItems s rid).map (fun it => it.menuItemId)))).take 5

/-- Entry of the popular-items ranking in the stats payload. -/
structure PopularItem where
  id : String
  name : String
  price : Rat
  image : Option String
  totalSold : Nat
  totalRevenue : Rat
deriving DecidableEq

/-- Enrichment of a group key with the current menu-item data, or the
"Unknown"/price-0 placeholder when the menu item no longer exists; the
summed quantity and subtotal are carried over unchanged. -/
def enrichPopular (s : Store) (items : List OrderItemRow) (mid : String) :
    PopularItem :=
  match findMenuItem s mid with
  | some m =>
    { id := mid, name := m.name, price := m.price, image := m.image,
      totalSold := totalQty items mid, totalRevenue := totalSub items mid }
  | none =>
    { id := mid, name := "Unknown", price := 0, image := none,
      totalSold := totalQty items mid, totalRevenue := totalSub items mid }

/-- Stats payload of `getRestaurantStats` (the daily-orders raw-SQL series is
outside the claims and omitted). -/
structure Stats where
  ordersTotal : Nat
  ordersPending : Nat
  ordersCompleted : Nat
  ordersCancelled : Nat
  ordersMonthly : Nat
  ordersYearly : Nat
  revenueMonthly : Rat
  revenueYearly : Rat
  popularItems : List PopularItem
deriving DecidableEq

/-- Modelled from the spec: the aggregation body of `getRestaurantStats` of
the restaurantStatsController, whose source file is not in the snapshot.  Its
unit tests pin every store query: six order counts (all/pending/delivered/
cancelled/since start of month/since start of year), two delivered-revenue
sums guarded with `|| 0`, and the popular-items groupBy (delivered orders of
the restaurant, sums of quantity and subtotal, ordered by summed quantity
descending, take 5) enriched from the current menu items. -/
def computeStats (s : Store) (rid : String) (asOf : SDate) : Stats :=
  let mine := s.orders.filter (fun o => o.restaurantId == rid)
  let items := deliveredItems s rid
  { ordersTotal := mine.length
    ordersPending := (mine.filter (fun o => o.status == "pending")).length
    ordersCompleted := (mine.filter (fun o => o.status == "delivered")).length
    ordersCancelled := (mine.filter (fun o => o.status == "cancelled")).length
    ordersMonthly := (mine.filter (fun o => sdBLE (startOfMonth asOf) o.createdAt)).length
    ordersYearly := (mine.filter (fun o => sdBLE (startOfYear asOf) o.createdAt)).length
    revenueMonthly := sumBy (fun o => o.total)
      (s.orders.filter (fun o =>
        o.restaurantId == rid && o.status == "delivered" &&
          sdBLE (startOfMonth asOf) o.createdAt))
    revenueYearly := sumBy (fun o => o.total)
      (s.orders.filter (fun o =>
        o.restaurantId == rid && o.status == "delivered" &&
          sdBLE (startOfYear asOf) o.createdAt))
    popularItems := (popularKeys s rid).map (enrichPopular s items) }

/-- Modelled from the spec: the request wrapper of `getRestaurantStats`.  Its
unit tests pin 401 before any lookup, 404 on a missing restaurant, and the
ownership guard admitting admins (403 "Not authorized to view stats for this
restaurant").  The operation is read-only, so it returns the payload instead
of a store. -/
def getRestaurantStats (user : Option Actor) (rid : String) (asOf : SDate)
    (s : Store) : Resp × Option Stats :=
  match user with
  | none => (resp401, none)
  | some u =>
    match findRestaurant s rid with
    | none => (resp404 "Restaurant not found", none)
    | some r =>
      if u.role != "admin" && r.ownerId != u.id then
        (resp403 "Not authorized to view stats for this restaurant", none)
      else
        (respOk "ok", some (computeStats s rid asOf))

/-- Ranking order stated from the SPEC's words, for comparison with the
code's ranking: summed quantity descending, ties broken by summed subtotal
descending, then by menuItemId ascending. -/
def specRankLT (items : List OrderItemRow) (a b : String) : Prop :=
  totalQty items b < totalQty items a ∨
    (totalQty items a = totalQty items b ∧
      (totalSub items b < totalSub items a ∨
        (totalSub items a = totalSub items b ∧ a < b)))

instance (items : List OrderItemRow) (x y : String) :
    Decidable (specRankLT items x y) := by
  unfold specRankLT
  infer_instance

/-- Top five group keys ranked as the SPEC claims (with the deterministic
tie-break); compared against `popularKeys`, which follows the code. -/
def popularKeysSpec (s : Store) (rid : String) : List String :=
  (List.insertionSort (specRankLT (deliveredItems s rid))
    (dedupKeys ((deliveredItems s rid).map (fun it => it.menuItemId)))).take 5

/-! Helper lemmas about the prisma-style find/replace store operations. -/

/-- Replacing the found row makes a subsequent find return the replacement. -/
theorem find?_replace_of_found {α : Type} {p : α → Bool} (w : α) {l : List α}
    (hw : p w = true) (hf : (l.find? p).isSome = true) :
    (l.map (fun x => if p x then w else x)).find? p = some w := by
  induction l with
  | nil => simp at hf
  | cons x xs ih =>
    by_cases hx : p x = true
    · simp [List.find?_cons, hx, hw]
    · rw [List.find?_cons_of_neg _ hx] at hf
      simp only [List.map_cons]
      rw [if_neg hx, List.find?_cons_of_neg _ hx]
      exact ih hf

/-- `findOrder` after `replaceOrder` at the same id. -/
theorem findOrder_replaceOrder {s : Store} {id : String} {o : Order} (w : Order)
    (h : findOrder s id = some o) (hw : w.id = id) :
    findOrder (replaceOrder s id w) id = some w := by
  unfold findOrder replaceOrder
  exact find?_replace_of_found w (by simp [hw]) (by unfold findOrder at h; rw [h]; rfl)

/-- `findDelivery` after `replaceDelivery` at the same id. -/
theorem findDelivery_replaceDelivery {s : Store} {id : String} {d : Delivery}
    (w : Delivery) (h : findDelivery s id = some d) (hw : w.id = id) :
    findDelivery (replaceDelivery s id w) id = some w := by
  unfold findDelivery replaceDelivery
  exact find?_replace_of_found w (by simp [hw]) (by unfold findDelivery at h; rw [h]; rfl)

/-- `findUser` after `replaceUser` at the same id. -/
theorem findUser_replaceUser {s : Store} {id : String} {v : User} (w : User)
    (h : findUser s id = some v) (hw : w.id = id) :
    findUser (replaceUser s id w) id = some w := by
  unfold findUser replaceUser
  exact find?_replace_of_found w (by simp [hw]) (by unfold findUser at h; rw [h]; rfl)

/-- The id of a row returned by a find is the id that was looked up. -/
theorem id_of_findOrder {s : Store} {id : String} {o : Order}
    (h : findOrder s id = some o) : o.id = id := by
  have := List.find?_some h
  simpa using this

/-- The id of a delivery returned by a find is the id that was looked up. -/
theorem id_of_findDelivery {s : Store} {id : String} {d : Delivery}
    (h : findDelivery s id = some d) : d.id = id := by
  have := List.find?_some h
  simpa using this

/-- The id of a user returned by a find is the id that was looked up. -/
theorem id_of_findUser {s : Store} {id : String} {v : User}
    (h : findUser s id = some v) : v.id = id := by
  have := List.find?_some h
  simpa using this

/-- Replacing a delivery row leaves the user table untouched. -/
theorem findUser_replaceDelivery (s : Store) (id : String) (d : Delivery)
    (uid : String) : findUser (replaceDelivery s id d) uid = findUser s uid := rfl

/-- Replacing a user row leaves the delivery table untouched. -/
theorem findDelivery_replaceUser (s : Store) (id : String) (v : User)
    (did : String) : findDelivery (replaceUser s id v) did = findDelivery s did := rfl

/-! Claim C9: effects of advancing a delivery to `delivered`. -/

/-- C9: when a driver advances a delivery to `delivered`, the one operation
stamps the delivery's `deliveryTime` with the current time, increments the
acting driver's `totalDeliveries` by exactly one, increments their
`totalEarnings` by exactly the delivery's `driverFee`, and resets their
availability flag to `online`. -/
theorem c9_delivered_effects (u : Actor) (s : Store) (id : String) (now : Nat)
    (d : Delivery) (v : User) (fee : Rat) (hd : findDelivery s id = some d)
    (hv : findUser s u.id = some v) (hfee : d.driverFee = some fee) :
    (updateDeliveryStatus (some u) id "delivered" now s).1 =
        respOk "Delivery status updated successfully" ∧
    findDelivery (updateDeliveryStatus (some u) id "delivered" now s).2 id =
        some { d with status := "delivered", deliveryTime := some now } ∧
    findUser (updateDeliveryStatus (some u) id "delivered" now s).2 u.id =
        some { v with driverStatus := "online",
                      totalDeliveries := v.totalDeliveries + 1,
                      totalEarnings := v.totalEarnings + fee } := by
  have hdid : d.id = id := id_of_findDelivery hd
  have hvid : v.id = u.id := id_of_findUser hv
  have hv1 : findUser (replaceDelivery s id
      { d with status := "delivered", deliveryTime := some now,
               driverFee := some fee }) u.id = some v := by
    rw [findUser_replaceDelivery]; exact hv
  simp only [updateDeliveryStatus, hd, hfee, Option.getD_some]
  rw [if_neg (show ¬ ((("delivered" : String) == "in_transit") = true) by decide)]
  rw [if_pos (show ((("delivered" : String) == "delivered") = true) by decide)]
  rw [if_pos (show ((("delivered" : String) == "delivered") = true) by decide)]
  rw [hv1]
  refine ⟨rfl, ?_, ?_⟩
  · rw [findDelivery_replaceUser]
    simpa using findDelivery_replaceDelivery
      { d with status := "delivered", deliveryTime := some now,
               driverFee := some fee } hd hdid
  · simpa using findUser_replaceUser
      { v with driverStatus := "online",
               totalDeliveries := v.totalDeliveries + 1,
               totalEarnings := v.totalEarnings + fee } hv1 hvid

/-- Concrete delivery row used to exercise the driver-controller theorems. -/
def c9Delivery : Delivery :=
  { id := "dl1", orderId := "o1", driverId := "d1", status := "in_transit",
    pickupTime := some 7, deliveryTime := none, driverFee := some 5 }

/-- Concrete driver row used to exercise the driver-controller theorems. -/
def c9User : User :=
  { id := "d2", role := "driver", driverStatus := "busy",
    totalDeliveries := 3, totalEarnings := 20 }

/-- Concrete store used to exercise the driver-controller theorems. -/
def c9Store : Store :=
  { restaurants := [], orders := [], orderItems := [], menuItems := [],
    deliveries := [c9Delivery], users := [c9User] }

/-- C9 witness: concrete run of the theorem. -/
theorem c9_delivered_effects_witness :
    (updateDeliveryStatus (some ⟨"d2", "driver"⟩) "dl1" "delivered" 11 c9Store).1 =
      respOk "Delivery status updated successfully" := by
  exact (c9_delivered_effects ⟨"d2", "driver"⟩ c9Store "dl1" 11 c9Delivery c9User 5
    (by decide) (by decide) rfl).1

/-! Claim C10: requesting `in_transit` overwrites the pickup stamp. -/

/-- C10: requesting delivery status `in_transit` via `updateDeliveryStatus`
overwrites the delivery's `pickupTime` with a fresh current timestamp, even
when a pickup stamp `t0` was already written when the delivery was accepted,
so `pickupTime` is not stable after acceptance. -/
theorem c10_in_transit_overwrites (u : Actor) (s : Store) (id : String)
    (now t0 : Nat) (d : Delivery) (hd : findDelivery s id = some d)
    (_hp : d.pickupTime = some t0) :
    (updateDeliveryStatus (some u) id "in_transit" now s).1.success = true ∧
    findDelivery (updateDeliveryStatus (some u) id "in_transit" now s).2 id =
      some { d with status := "in_transit", pickupTime := some now } := by
  have hdid : d.id = id := id_of_findDelivery hd
  simp only [updateDeliveryStatus, hd]
  rw [if_pos (show ((("in_transit" : String) == "in_transit") = true) by decide)]
  rw [if_neg (show ¬ ((("in_transit" : String) == "delivered") = true) by decide)]
  rw [if_neg (show ¬ ((("in_transit" : String) == "delivered") = true) by decide)]
  refine ⟨rfl, ?_⟩
  simpa using findDelivery_replaceDelivery
    { d with status := "in_transit", pickupTime := some now } hd hdid

/-- Concrete delivery row with an existing pickup stamp for the C10 witness. -/
def c10Delivery : Delivery :=
  { id := "dl1", orderId := "o1", driverId := "d1", status := "picked_up",
    pickupTime := some 7, deliveryTime := none, driverFee := some 5 }

/-- Concrete store for the C10 witness. -/
def c10Store : Store :=
  { restaurants := [], orders := [], orderItems := [], menuItems := [],
    deliveries := [c10Delivery], users := [] }

/-- C10 witness: concrete run with an earlier stamp 7 replaced by 42. -/
theorem c10_in_transit_overwrites_witness :
    findDelivery
        (updateDeliveryStatus (some ⟨"d2", "driver"⟩) "dl1" "in_transit" 42 c10Store).2
        "dl1" =
      some { c10Delivery with status := "in_transit", pickupTime := some 42 } := by
  exact (c10_in_transit_overwrites ⟨"d2", "driver"⟩ c10Store "dl1" 42 7 c10Delivery
    (by decide) rfl).2

/-! Claim C4: the driver delivery facade and its (absent) validation. -/

/-- Concrete delivery that is neither `assigned` nor assigned to actor d2. -/
def c4Delivery : Delivery :=
  { id := "dl1", orderId := "o1", driverId := "d1", status := "delivered",
    pickupTime := some 7, deliveryTime := some 8, driverFee := some 5 }

/-- Concrete store for exercising the delivery-validation claim. -/
def c4Store : Store :=
  { restaurants := [], orders := [], orderItems := [], menuItems := [],
    deliveries := [c4Delivery],
    users := [{ id := "d2", role := "driver", driverStatus := "online",
                totalDeliveries := 0, totalEarnings := 0 }] }

/-- C4 counterexample: the delivery is `delivered` (not `assigned`) and is
assigned to driver d1, yet actor d2's `acceptDelivery` succeeds and rewrites
the status to `picked_up` — the claimed wrong-state/wrong-driver validation
does not exist in the code. -/
theorem c4_counterexample :
    c4Delivery.status ≠ "assigned" ∧ c4Delivery.driverId ≠ "d2" ∧
    (acceptDelivery (some ⟨"d2", "driver"⟩) "dl1" 9 c4Store).1.success = true ∧
    (findDelivery (acceptDelivery (some ⟨"d2", "driver"⟩) "dl1" 9 c4Store).2
        "dl1").map Delivery.status = some "picked_up" := by
  exact ⟨by decide, by decide, by decide, by decide⟩

/-- C4 amended: the driver facade checks authentication only.  For any
authenticated actor and any existing delivery, `acceptDelivery` succeeds
regardless of the delivery's state or assigned driver, rewriting it to
`picked_up` and marking the acting user busy; and `updateDeliveryStatus`
writes whatever status is requested (shown here for every non-`delivered`
request; the `delivered` request likewise succeeds, with the side effects
proved for claim C9). -/
theorem c4_no_delivery_validation (u : Actor) (s : Store) (id st : String)
    (now : Nat) (d : Delivery) (v : User) (hd : findDelivery s id = some d)
    (hv : findUser s u.id = some v) (hst : st ≠ "delivered") :
    (acceptDelivery (some u) id now s).1 = respOk "Delivery accepted successfully" ∧
    findDelivery (acceptDelivery (some u) id now s).2 id =
      some { d with status := "picked_up", pickupTime := some now } ∧
    findUser (acceptDelivery (some u) id now s).2 u.id =
      some { v with driverStatus := "busy" } ∧
    (updateDeliveryStatus (some u) id st now s).1 =
      respOk "Delivery status updated successfully" ∧
    findDelivery (updateDeliveryStatus (some u) id st now s).2 id =
      some { d with status := st,
                    pickupTime := if st == "in_transit" then some now else d.pickupTime } := by
  have hdid : d.id = id := id_of_findDelivery hd
  have hvid : v.id = u.id := id_of_findUser hv
  have hstb : (st == "delivered") = false := beq_eq_false_iff_ne.mpr hst
  have hv1 : findUser (replaceDelivery s id
      { d with status := "picked_up", pickupTime := some now }) u.id = some v := by
    rw [findUser_replaceDelivery]; exact hv
  refine ⟨?_, ?_, ?_, ?_, ?_⟩
  · simp only [acceptDelivery, hd]
    rw [hv1]
  · simp only [acceptDelivery, hd]
    rw [hv1]
    rw [findDelivery_replaceUser]
    exact findDelivery_replaceDelivery
      { d with status := "picked_up", pickupTime := some now } hd hdid
  · simp only [acceptDelivery, hd]
    rw [hv1]
    exact findUser_replaceUser { v with driverStatus := "busy" } hv1 hvid
  · simp only [updateDeliveryStatus, hd, hstb, Bool.false_eq_true, if_false]
  · simp only [updateDeliveryStatus, hd, hstb, Bool.false_eq_true, if_false]
    exact findDelivery_replaceDelivery
      { d with status := st,
               pickupTime := if st == "in_transit" then some now else d.pickupTime }
      hd hdid

/-- C4 witness: concrete run of the amended theorem; the requested status
`cancelled` is written from the terminal state `delivered`. -/
theorem c4_no_delivery_validation_witness :
    (findDelivery
        (updateDeliveryStatus (some ⟨"d2", "driver"⟩) "dl1" "cancelled" 9 c4Store).2
        "dl1").map Delivery.status = some "cancelled" := by
  have h := (c4_no_delivery_validation ⟨"d2", "driver"⟩ c4Store "dl1" "cancelled" 9
    c4Delivery ⟨"d2", "driver", "online", 0, 0⟩ (by decide) (by decide)
    (by decide)).2.2.2.2
  rw [h]
  decide

/-! Claim C1: every operation writing Order.status respects the edge set. -/

/-- Concrete order in the terminal state `delivered`. -/
def c1Order : Order :=
  { id := "o1", customerId := "c1", restaurantId := "r1", status := "delivered",
    total := 10, createdAt := ⟨2024, 1, 10⟩, actualDeliveryTime := some 99 }

/-- Concrete store holding `c1Order` and its restaurant. -/
def c1Store : Store :=
  { restaurants := [{ id := "r1", ownerId := "own1" }], orders := [c1Order],
    orderItems := [], menuItems := [], deliveries := [], users := [] }

/-- C1 counterexample: `assignDriver` writes Order.status with no validation.
On an order whose status is the terminal `delivered` it succeeds and resets
the status to `confirmed` — a pair outside the allowed edge set — with no
InvalidTransition error, so not every status write is validated. -/
theorem c1_counterexample :
    c1Order.status = "delivered" ∧
    "confirmed" ∉ validNext "delivered" ∧
    (assignDriver "o1" "d1" "dl1" c1Store).1.success = true ∧
    (findOrder (assignDriver "o1" "d1" "dl1" c1Store).2 "o1").map Order.status =
      some "confirmed" := by
  exact ⟨rfl, by decide, by decide, by decide⟩

/-- C1 amended: the status-update operations (both `updateOrderStatus`
controllers) move an order only along the allowed edges and reject any other
requested pair with a 400 error naming the current and the requested status,
leaving the store unchanged; `acceptOrder`/`rejectOrder` write only from
`pending` and `cancelOrder` only from `pending`/`confirmed` — but
`assignDriver` is an exception: it unconditionally sets the order's status to
`confirmed` whatever the current status. -/
theorem c1_status_writes (u : Actor) (s : Store) (id reqStatus drvId dlvId : String)
    (now : Nat) (o : Order) (ho : findOrder s id = some o) :
    ((updateOrderStatus (some u) id reqStatus now s).1.success = true →
        reqStatus ∈ validNext o.status) ∧
    ((updateOrderStatus (some u) id reqStatus now s).1.success = false →
        (updateOrderStatus (some u) id reqStatus now s).2 = s) ∧
    ((mgmtUpdateOrderStatus (some u) id reqStatus s).1.success = true →
        reqStatus ∈ validNext o.status) ∧
    ((mgmtUpdateOrderStatus (some u) id reqStatus s).1.success = false →
        (mgmtUpdateOrderStatus (some u) id reqStatus s).2 = s) ∧
    ((acceptOrder (some u) id s).1.success = true → o.status = "pending") ∧
    ((rejectOrder (some u) id s).1.success = true → o.status = "pending") ∧
    ((cancelOrder (some u) id s).1.success = true →
        o.status = "pending" ∨ o.status = "confirmed") ∧
    (∀ r, findRestaurant s o.restaurantId = some r → u.role = "admin" →
        reqStatus ∉ validNext o.status →
        updateOrderStatus (some u) id reqStatus now s =
          (resp400 ("Cannot change status from " ++ o.status ++ " to " ++ reqStatus),
           s)) ∧
    ((assignDriver id drvId dlvId s).1.success = true ∧
      findOrder (assignDriver id drvId dlvId s).2 id =
        some { o with status := "confirmed" }) := by
  refine ⟨?_, ?_, ?_, ?_, ?_, ?_, ?_, ?_, ?_, ?_⟩
  · simp only [updateOrderStatus, ho]
    split
    · intro h; simp [resp500] at h
    · split
      · intro h; simp [resp403] at h
      · split
        · intro h; simp [resp400] at h
        · rename_i hc
          intro _
          simp at hc
          exact hc
  · simp only [updateOrderStatus, ho]
    split
    · intro _; rfl
    · split
      · intro _; rfl
      · split
        · intro _; rfl
        · intro h; simp [respOk] at h
  · simp only [mgmtUpdateOrderStatus, ho]
    split
    · intro h; simp [resp500] at h
    · split
      · intro h; simp [resp403] at h
      · split
        · intro h; simp [resp400] at h
        · rename_i hc
          intro _
          simp at hc
          exact hc
  · simp only [mgmtUpdateOrderStatus, ho]
    split
    · intro _; rfl
    · split
      · intro _; rfl
      · split
        · intro _; rfl
        · intro h; simp [respOk] at h
  · simp only [acceptOrder, ho]
    split
    · intro h; simp [resp500] at h
    · split
      · intro h; simp [resp403] at h
      · split
        · intro h; simp [resp400] at h
        · rename_i hc
          intro _
          simpa using hc
  · simp only [rejectOrder, ho]
    split
    · intro h; simp [resp500] at h
    · split
      · intro h; simp [resp403] at h
      · split
        · intro h; simp [resp400] at h
        · rename_i hc
          intro _
          simpa using hc
  · simp only [cancelOrder, ho]
    split
    · intro h; simp [resp403] at h
    · split
      · intro h; simp [resp400] at h
      · rename_i hc
        intro _
        simp at hc
        by_cases hp : o.status = "pending"
        · exact Or.inl hp
        · exact Or.inr (hc hp)
  · intro r hr hadmin hnot
    simp only [updateOrderStatus, ho, hr]
    rw [if_neg (by simp [hadmin])]
    rw [if_pos (by simpa using hnot)]
  · simp only [assignDriver, ho]
    rfl
  · have hid : o.id = id := id_of_findOrder ho
    simp only [assignDriver, ho]
    exact findOrder_replaceOrder { o with status := "confirmed" } ho hid

/-- C1 witness: on the concrete delivered order, an admin's request for
`confirmed` is rejected with the message naming both statuses and the store
is unchanged. -/
theorem c1_status_writes_witness :
    updateOrderStatus (some ⟨"a1", "admin"⟩) "o1" "confirmed" 0 c1Store =
      (resp400 "Cannot change status from delivered to confirmed", c1Store) := by
  have h := (c1_status_writes ⟨"a1", "admin"⟩ c1Store "o1" "confirmed" "d1" "dl1" 0
      c1Order (by decide)).2.2.2.2.2.2.2.1 ⟨"r1", "own1"⟩ (by decide) rfl (by decide)
  exact h

/-! Claim C2: accept/reject succeed exactly from `pending`. -/

/-- Concrete order in state `confirmed` for the accept/reject claim. -/
def c2Order : Order :=
  { id := "o1", customerId := "c1", restaurantId := "r1", status := "confirmed",
    total := 10, createdAt := ⟨2024, 1, 10⟩, actualDeliveryTime := none }

/-- Concrete store holding `c2Order`, its restaurant and its owner. -/
def c2Store : Store :=
  { restaurants := [{ id := "r1", ownerId := "own1" }], orders := [c2Order],
    orderItems := [], menuItems := [], deliveries := [], users := [] }

/-- C2 counterexample: on the same non-pending order, `acceptOrder` and
`rejectOrder` both fail, but with two different error messages, not with one
shared error as the claim states. -/
theorem c2_counterexample :
    (acceptOrder (some ⟨"own1", "restaurant_owner"⟩) "o1" c2Store).1.error =
        some "Only pending orders can be accepted" ∧
    (rejectOrder (some ⟨"own1", "restaurant_owner"⟩) "o1" c2Store).1.error =
        some "Only pending orders can be rejected" ∧
    (acceptOrder (some ⟨"own1", "restaurant_owner"⟩) "o1" c2Store).1.error ≠
      (rejectOrder (some ⟨"own1", "restaurant_owner"⟩) "o1" c2Store).1.error := by
  exact ⟨by decide, by decide, by decide⟩

/-- C2 amended: for an authorized actor, `acceptOrder` succeeds (writing
`confirmed`) and `rejectOrder` succeeds (writing `cancelled`) exactly when
the order is `pending`; from any other status both fail with 400 and no
write, but with the two operation-specific messages "Only pending orders can
be accepted" and "Only pending orders can be rejected" rather than one
shared error. -/
theorem c2_accept_reject (u : Actor) (s : Store) (id : String) (o : Order)
    (r : Restaurant) (ho : findOrder s id = some o)
    (hr : findRestaurant s o.restaurantId = some r)
    (hauth : u.role = "admin" ∨ r.ownerId = u.id) :
    ((acceptOrder (some u) id s).1.success = true ↔ o.status = "pending") ∧
    ((rejectOrder (some u) id s).1.success = true ↔ o.status = "pending") ∧
    (o.status = "pending" →
      acceptOrder (some u) id s =
        (respOk "Order accepted successfully",
         replaceOrder s id { o with status := "confirmed" }) ∧
      rejectOrder (some u) id s =
        (respOk "Order rejected successfully",
         replaceOrder s id { o with status := "cancelled" })) ∧
    (o.status ≠ "pending" →
      acceptOrder (some u) id s = (resp400 "Only pending orders can be accepted", s) ∧
      rejectOrder (some u) id s = (resp400 "Only pending orders can be rejected", s)) := by
  have hcond : (u.role != "admin" && r.ownerId != u.id) = false := by
    cases hauth with
    | inl h => simp [h]
    | inr h => simp [h]
  refine ⟨?_, ?_, ?_, ?_⟩
  · simp only [acceptOrder, ho, hr, hcond, Bool.false_eq_true, if_false]
    by_cases hp : o.status = "pending"
    · simp [hp, respOk]
    · simp [hp, resp400, beq_eq_false_iff_ne.mpr hp]
  · simp only [rejectOrder, ho, hr, hcond, Bool.false_eq_true, if_false]
    by_cases hp : o.status = "pending"
    · simp [hp, respOk]
    · simp [hp, resp400, beq_eq_false_iff_ne.mpr hp]
  · intro hp
    constructor
    · simp only [acceptOrder, ho, hr, hcond, Bool.false_eq_true, if_false]
      rw [if_neg (by simp [hp])]
    · simp only [rejectOrder, ho, hr, hcond, Bool.false_eq_true, if_false]
      rw [if_neg (by simp [hp])]
  · intro hp
    constructor
    · simp only [acceptOrder, ho, hr, hcond, Bool.false_eq_true, if_false]
      rw [if_pos (by simpa using hp)]
    · simp only [rejectOrder, ho, hr, hcond, Bool.false_eq_true, if_false]
      rw [if_pos (by simpa using hp)]

/-- C2 witness: concrete run of the amended theorem on the confirmed order. -/
theorem c2_accept_reject_witness :
    acceptOrder (some ⟨"own1", "restaurant_owner"⟩) "o1" c2Store =
      (resp400 "Only pending orders can be accepted", c2Store) := by
  exact ((c2_accept_reject ⟨"own1", "restaurant_owner"⟩ c2Store "o1" c2Order
    ⟨"r1", "own1"⟩ (by decide) (by decide) (Or.inr rfl)).2.2.2 (by decide)).1

/-! Claim C3: non-owner restaurant owners are denied; admins always pass. -/

/-- C3: a restaurant_owner actor who does not own the resource's restaurant
is denied with 403 and the store is left unchanged by each mutating
operation on the restaurant's orders and menu items (acceptOrder,
rejectOrder, updateOrderStatus, createMenuItem, updateMenuItem,
deleteMenuItem); an admin actor is never denied with 403 by any of them. -/
theorem c3_ownership (s : Store) (u : Actor) (hrole : u.role = "restaurant_owner") :
    (∀ id o r, findOrder s id = some o → findRestaurant s o.restaurantId = some r →
      r.ownerId ≠ u.id →
        acceptOrder (some u) id s = (resp403 "Not authorized", s) ∧
        rejectOrder (some u) id s = (resp403 "Not authorized", s) ∧
        (∀ st, mgmtUpdateOrderStatus (some u) id st s =
          (resp403 "Not authorized to update this order", s))) ∧
    (∀ input r nid, findRestaurant s input.restaurantId = some r →
      r.ownerId ≠ u.id →
        createMenuItem (some u) input nid s =
          (resp403 "Not authorized to create menu items for this restaurant", s)) ∧
    (∀ id m r, findMenuItem s id = some m → findRestaurant s m.restaurantId = some r →
      r.ownerId ≠ u.id →
        (∀ patch, updateMenuItem (some u) id patch s =
          (resp403 "Not authorized to update this menu item", s)) ∧
        deleteMenuItem (some u) id s =
          (resp403 "Not authorized to delete this menu item", s)) ∧
    (∀ a : Actor, ∀ id st nid : String, ∀ input : MenuItemInput,
      ∀ patch : MenuItemPatch, ∀ now : Nat, a.role = "admin" →
        (acceptOrder (some a) id s).1.code ≠ 403 ∧
        (rejectOrder (some a) id s).1.code ≠ 403 ∧
        (mgmtUpdateOrderStatus (some a) id st s).1.code ≠ 403 ∧
        (updateOrderStatus (some a) id st now s).1.code ≠ 403 ∧
        (createMenuItem (some a) input nid s).1.code ≠ 403 ∧
        (updateMenuItem (some a) id patch s).1.code ≠ 403 ∧
        (deleteMenuItem (some a) id s).1.code ≠ 403) := by
  refine ⟨?_, ?_, ?_, ?_⟩
  · intro id o r ho hr hne
    have hcond : (u.role != "admin" && r.ownerId != u.id) = true := by
      simp [hrole, hne]
    refine ⟨?_, ?_, ?_⟩
    · simp only [acceptOrder, ho, hr]
      rw [if_pos hcond]
    · simp only [rejectOrder, ho, hr]
      rw [if_pos hcond]
    · intro st
      simp only [mgmtUpdateOrderStatus, ho, hr]
      rw [if_pos hcond]
  · intro input r nid hr hne
    simp only [createMenuItem, hr]
    rw [if_pos (by simp [hrole, hne])]
  · intro id m r hm hr hne
    constructor
    · intro patch
      simp only [updateMenuItem, hm, hr]
      rw [if_pos (by simp [hrole, hne])]
    · simp only [deleteMenuItem, hm, hr]
      rw [if_pos (by simp [hrole, hne])]
  · intro a id st nid input patch now ha
    refine ⟨?_, ?_, ?_, ?_, ?_, ?_, ?_⟩
    · simp only [acceptOrder]
      split
      · simp [resp404]
      · split
        · simp [resp500]
        · split
          · rename_i h; simp [ha] at h
          · split
            · simp [resp400]
            · simp [respOk]
    · simp only [rejectOrder]
      split
      · simp [resp404]
      · split
        · simp [resp500]
        · split
          · rename_i h; simp [ha] at h
          · split
            · simp [resp400]
            · simp [respOk]
    · simp only [mgmtUpdateOrderStatus]
      split
      · simp [resp404]
      · split
        · simp [resp500]
        · split
          · rename_i h; simp [ha] at h
          · split
            · simp [resp400]
            · simp [respOk]
    · simp only [updateOrderStatus]
      split
      · simp [resp404]
      · split
        · simp [resp500]
        · split
          · rename_i h; simp [ha] at h
          · split
            · simp [resp400]
            · simp [respOk]
    · simp only [createMenuItem]
      split
      · simp [resp404]
      · split
        · rename_i h; simp [ha] at h
        · simp [respCreated]
    · simp only [updateMenuItem]
      split
      · simp [resp404]
      · split
        · simp [resp500]
        · split
          · rename_i h; simp [ha] at h
          · simp [respOk]
    · simp only [deleteMenuItem]
      split
      · simp [resp404]
      · split
        · simp [resp500]
        · split
          · rename_i h; simp [ha] at h
          · simp [respOk]

/-- Concrete pending order for the ownership claim. -/
def c3Order : Order :=
  { id := "o1", customerId := "c1", restaurantId := "r1", status := "pending",
    total := 10, createdAt := ⟨2024, 1, 10⟩, actualDeliveryTime := none }

/-- Concrete store for the ownership claim. -/
def c3Store : Store :=
  { restaurants := [{ id := "r1", ownerId := "own1" }], orders := [c3Order],
    orderItems := [],
    menuItems := [{ id := "m1", restaurantId := "r1", name := "Burger", price := 13,
                    image := none, isAvailable := true }],
    deliveries := [], users := [] }

/-- C3 witness: a restaurant_owner who is not own1 gets 403 from
`acceptOrder` on own1's pending order, with no write. -/
theorem c3_ownership_witness :
    acceptOrder (some ⟨"intruder", "restaurant_owner"⟩) "o1" c3Store =
      (resp403 "Not authorized", c3Store) := by
  exact ((c3_ownership c3Store ⟨"intruder", "restaurant_owner"⟩ rfl).1 "o1" c3Order
    ⟨"r1", "own1"⟩ (by decide) (by decide) (by decide)).1

/-! Claim C5: cancellation window of an order. -/

/-- C5: for an authorized actor, `cancelOrder` succeeds only while the order
is `pending` or `confirmed` (writing `cancelled`); once the status is
`out_for_delivery` or `delivered`, cancellation is refused with the
"Cannot cancel order that is out for delivery or delivered" error and the
order is unchanged. -/
theorem c5_cancel_window (u : Actor) (s : Store) (id : String) (o : Order)
    (ho : findOrder s id = some o)
    (hauth : u.role = "admin" ∨ o.customerId = u.id) :
    ((o.status = "out_for_delivery" ∨ o.status = "delivered") →
      cancelOrder (some u) id s =
        (resp400 "Cannot cancel order that is out for delivery or delivered", s)) ∧
    ((cancelOrder (some u) id s).1.success = true →
      (o.status = "pending" ∨ o.status = "confirmed")) ∧
    ((o.status = "pending" ∨ o.status = "confirmed") →
      cancelOrder (some u) id s =
        (respOk "Order cancelled successfully",
         replaceOrder s id { o with status := "cancelled" })) := by
  have hcond : (u.role != "admin" && o.customerId != u.id) = false := by
    cases hauth with
    | inl h => simp [h]
    | inr h => simp [h]
  refine ⟨?_, ?_, ?_⟩
  · intro hst
    simp only [cancelOrder, ho, hcond, Bool.false_eq_true, if_false]
    rw [if_pos]
    cases hst with
    | inl h => simp [h]
    | inr h => simp [h]
  · simp only [cancelOrder, ho, hcond, Bool.false_eq_true, if_false]
    split
    · intro h; simp [resp400] at h
    · rename_i hc
      intro _
      simp at hc
      by_cases hp : o.status = "pending"
      · exact Or.inl hp
      · exact Or.inr (hc hp)
  · intro hst
    simp only [cancelOrder, ho, hcond, Bool.false_eq_true, if_false]
    rw [if_neg]
    cases hst with
    | inl h => simp [h]
    | inr h => simp [h]

/-- Concrete out-for-delivery order for the cancellation claim. -/
def c5Order : Order :=
  { id := "o1", customerId := "c1", restaurantId := "r1",
    status := "out_for_delivery", total := 10, createdAt := ⟨2024, 1, 10⟩,
    actualDeliveryTime := none }

/-- Concrete store for the cancellation claim. -/
def c5Store : Store :=
  { restaurants := [{ id := "r1", ownerId := "own1" }], orders := [c5Order],
    orderItems := [], menuItems := [], deliveries := [], users := [] }

/-- C5 witness: the customer's cancellation of their out-for-delivery order
is refused and the store is unchanged. -/
theorem c5_cancel_window_witness :
    cancelOrder (some ⟨"c1", "customer"⟩) "o1" c5Store =
      (resp400 "Cannot cancel order that is out for delivery or delivered",
       c5Store) := by
  exact (c5_cancel_window ⟨"c1", "customer"⟩ c5Store "o1" c5Order (by decide)
    (Or.inr rfl)).1 (Or.inl rfl)

/-! Claim C6: error precedence (401 before lookup, 404 before auth, 403 only
for existing resources). -/

/-- Concrete store with a user but no deliveries, for the precedence claim. -/
def c6Store : Store :=
  { restaurants := [], orders := [], orderItems := [], menuItems := [],
    deliveries := [],
    users := [{ id := "d2", role := "driver", driverStatus := "online",
                totalDeliveries := 0, totalEarnings := 0 }] }

/-- C6 counterexample: for an authenticated actor and a nonexistent delivery,
`updateDeliveryStatus` fails with the generic 500 error, not with NotFound —
so not every core operation surfaces NotFound for a missing resource. -/
theorem c6_counterexample :
    findDelivery c6Store "nope" = none ∧
    updateDeliveryStatus (some ⟨"d2", "driver"⟩) "nope" "picked_up" 3 c6Store =
      (resp500 "Failed to update delivery status", c6Store) ∧
    (updateDeliveryStatus (some ⟨"d2", "driver"⟩) "nope" "picked_up" 3
        c6Store).1.code ≠ 404 := by
  exact ⟨by decide, by decide, by decide⟩

/-- C6 amended: every operation returns NotAuthenticated (401) before any
resource access when the actor context is missing, leaving the store
untouched; the operations that resolve their resource (order operations,
menu-item operations, stats) return NotFound (404) for a missing resource
before authorization is evaluated, for any actor, and return Forbidden (403)
only when the resource exists; but the driver delivery operations never
perform an existence check — a missing delivery surfaces as the generic 500
error instead of NotFound. -/
theorem c6_error_precedence (s : Store) (u : Actor) (id st nid : String)
    (input : MenuItemInput) (patch : MenuItemPatch) (now : Nat) (asOf : SDate) :
    (acceptOrder none id s = (resp401, s) ∧
     rejectOrder none id s = (resp401, s) ∧
     mgmtUpdateOrderStatus none id st s = (resp401, s) ∧
     updateOrderStatus none id st now s = (resp401, s) ∧
     cancelOrder none id s = (resp401, s) ∧
     createMenuItem none input nid s = (resp401, s) ∧
     updateMenuItem none id patch s = (resp401, s) ∧
     deleteMenuItem none id s = (resp401, s) ∧
     acceptDelivery none id now s = (resp401, s) ∧
     updateDeliveryStatus none id st now s = (resp401, s) ∧
     getRestaurantStats none id asOf s = (resp401, none)) ∧
    (findOrder s id = none →
      acceptOrder (some u) id s = (resp404 "Order not found", s) ∧
      rejectOrder (some u) id s = (resp404 "Order not found", s) ∧
      mgmtUpdateOrderStatus (some u) id st s = (resp404 "Order not found", s) ∧
      updateOrderStatus (some u) id st now s = (resp404 "Order not found", s) ∧
      cancelOrder (some u) id s = (resp404 "Order not found", s)) ∧
    (findRestaurant s input.restaurantId = none →
      createMenuItem (some u) input nid s = (resp404 "Restaurant not found", s)) ∧
    (findRestaurant s id = none →
      getRestaurantStats (some u) id asOf s =
        (resp404 "Restaurant not found", none)) ∧
    (findMenuItem s id = none →
      updateMenuItem (some u) id patch s = (resp404 "Menu item not found", s) ∧
      deleteMenuItem (some u) id s = (resp404 "Menu item not found", s)) ∧
    ((acceptOrder (some u) id s).1.code = 403 → findOrder s id ≠ none) ∧
    ((getRestaurantStats (some u) id asOf s).1.code = 403 →
      findRestaurant s id ≠ none) ∧
    (findDelivery s id = none →
      acceptDelivery (some u) id now s = (resp500 "Failed to accept delivery", s) ∧
      updateDeliveryStatus (some u) id st now s =
        (resp500 "Failed to update delivery status", s)) := by
  refine ⟨?_, ?_, ?_, ?_, ?_, ?_, ?_, ?_⟩
  · exact ⟨rfl, rfl, rfl, rfl, rfl, rfl, rfl, rfl, rfl, rfl, rfl⟩
  · intro hno
    refine ⟨?_, ?_, ?_, ?_, ?_⟩ <;> simp only [acceptOrder, rejectOrder,
      mgmtUpdateOrderStatus, updateOrderStatus, cancelOrder, hno]
  · intro hno
    simp only [createMenuItem, hno]
  · intro hno
    simp only [getRestaurantStats, hno]
  · intro hno
    constructor <;> simp only [updateMenuItem, deleteMenuItem, hno]
  · intro h403 hno
    simp only [acceptOrder, hno, resp404] at h403
    exact absurd h403 (by decide)
  · intro h403 hno
    simp only [getRestaurantStats, hno, resp404] at h403
    exact absurd h403 (by decide)
  · intro hno
    constructor <;> simp only [acceptDelivery, updateDeliveryStatus, hno]

/-- C6 witness: concrete 404-before-authorization run for a missing order. -/
theorem c6_error_precedence_witness :
    acceptOrder (some ⟨"someone", "customer"⟩) "ghost" c6Store =
      (resp404 "Order not found", c6Store) := by
  exact ((c6_error_precedence c6Store ⟨"someone", "customer"⟩ "ghost" "confirmed"
    "n1" ⟨"r9", "Pizza", 5, none⟩ ⟨none, none, none, none⟩ 0
    ⟨2024, 1, 15⟩).2.1 (by decide)).1

/-! Date-window lemmas for the statistics aggregator. -/

/-- Characterization of the lexicographic date comparison. -/
theorem sdBLE_iff (a b : SDate) :
    sdBLE a b = true ↔
      (a.year < b.year ∨ (a.year = b.year ∧
        (a.month < b.month ∨ (a.month = b.month ∧ a.day ≤ b.day)))) := by
  simp [sdBLE, Nat.blt_eq, Nat.ble_eq]

/-- For a date no later than `asOf` with a positive day-of-month, lying at or
after the start of `asOf`'s month is the same as lying in `asOf`'s calendar
month. -/
theorem sdBLE_startOfMonth (asOf d : SDate) (hpast : sdBLE d asOf = true)
    (hday : 1 ≤ d.day) :
    sdBLE (startOfMonth asOf) d = (d.year == asOf.year && d.month == asOf.month) := by
  rw [Bool.eq_iff_iff, sdBLE_iff]
  rw [sdBLE_iff] at hpast
  simp only [startOfMonth, Bool.and_eq_true, beq_iff_eq]
  omega

/-- For a date no later than `asOf` with positive day and month, lying at or
after the start of `asOf`'s year is the same as lying in `asOf`'s calendar
year. -/
theorem sdBLE_startOfYear (asOf d : SDate) (hpast : sdBLE d asOf = true)
    (hday : 1 ≤ d.day) (hmonth : 1 ≤ d.month) :
    sdBLE (startOfYear asOf) d = (d.year == asOf.year) := by
  rw [Bool.eq_iff_iff, sdBLE_iff]
  rw [sdBLE_iff] at hpast
  simp only [startOfYear, beq_iff_eq]
  omega

/-! Claim C8: the revenue figures and the empty-window behaviour. -/

/-- C8: with every order dated no later than `asOf` (and carrying a valid
calendar date), the stats' monthly and yearly revenue equal the sum of
Order.total over the restaurant's delivered orders created within the
current calendar month and year respectively; and when the restaurant has no
delivered orders at all, both revenue figures are exactly 0 and popularItems
is the empty list. -/
theorem c8_revenue (s : Store) (rid : String) (asOf : SDate)
    (hpast : ∀ o ∈ s.orders, sdBLE o.createdAt asOf = true)
    (hvalid : ∀ o ∈ s.orders, 1 ≤ o.createdAt.day ∧ 1 ≤ o.createdAt.month) :
    (computeStats s rid asOf).revenueMonthly =
      sumBy (fun o => o.total)
        (s.orders.filter (fun o =>
          o.restaurantId == rid && o.status == "delivered" &&
            (o.createdAt.year == asOf.year && o.createdAt.month == asOf.month))) ∧
    (computeStats s rid asOf).revenueYearly =
      sumBy (fun o => o.total)
        (s.orders.filter (fun o =>
          o.restaurantId == rid && o.status == "delivered" &&
            o.createdAt.year == asOf.year)) ∧
    (s.orders.filter (fun o => o.restaurantId == rid && o.status == "delivered") = [] →
      (computeStats s rid asOf).revenueMonthly = 0 ∧
      (computeStats s rid asOf).revenueYearly = 0 ∧
      (computeStats s rid asOf).popularItems = []) := by
  refine ⟨?_, ?_, ?_⟩
  · simp only [computeStats]
    congr 1
    apply List.filter_congr
    intro o ho
    rw [sdBLE_startOfMonth asOf o.createdAt (hpast o ho) (hvalid o ho).1]
  · simp only [computeStats]
    congr 1
    apply List.filter_congr
    intro o ho
    rw [sdBLE_startOfYear asOf o.createdAt (hpast o ho) (hvalid o ho).1
      (hvalid o ho).2]
  · intro hnil
    have hnone : ∀ o ∈ s.orders,
        ¬ ((o.restaurantId == rid && o.status == "delivered") = true) :=
      List.filter_eq_nil_iff.mp hnil
    have hsubM : s.orders.filter (fun o =>
        o.restaurantId == rid && o.status == "delivered" &&
          sdBLE (startOfMonth asOf) o.createdAt) = [] := by
      rw [List.filter_eq_nil_iff]
      intro o ho hcontra
      simp only [Bool.and_eq_true] at hcontra
      exact hnone o ho (by simp [Bool.and_eq_true, hcontra.1.1, hcontra.1.2])
    have hsubY : s.orders.filter (fun o =>
        o.restaurantId == rid && o.status == "delivered" &&
          sdBLE (startOfYear asOf) o.createdAt) = [] := by
      rw [List.filter_eq_nil_iff]
      intro o ho hcontra
      simp only [Bool.and_eq_true] at hcontra
      exact hnone o ho (by simp [Bool.and_eq_true, hcontra.1.1, hcontra.1.2])
    have hdel : deliveredItems s rid = [] := by
      unfold deliveredItems
      rw [List.filter_eq_nil_iff]
      intro it _ hcontra
      cases hfo : findOrder s it.orderId with
      | none => rw [hfo] at hcontra; simp at hcontra
      | some o =>
        rw [hfo] at hcontra
        exact hnone o (List.mem_of_find?_eq_some hfo) hcontra
    refine ⟨?_, ?_, ?_⟩
    · simp only [computeStats]
      rw [hsubM]
      rfl
    · simp only [computeStats]
      rw [hsubY]
      rfl
    · simp only [computeStats, popularKeys]
      rw [hdel]
      rfl

/-- Concrete store for the revenue claim: one delivered order in May 2024,
one delivered order in January 2024, one pending order in May 2024. -/
def c8Store : Store :=
  { restaurants := [{ id := "r1", ownerId := "own1" }],
    orders :=
      [{ id := "o1", customerId := "c1", restaurantId := "r1",
         status := "delivered", total := 10, createdAt := ⟨2024, 5, 2⟩,
         actualDeliveryTime := none },
       { id := "o2", customerId := "c1", restaurantId := "r1",
         status := "delivered", total := 7, createdAt := ⟨2024, 1, 20⟩,
         actualDeliveryTime := none },
       { id := "o3", customerId := "c1", restaurantId := "r1",
         status := "pending", total := 4, createdAt := ⟨2024, 5, 3⟩,
         actualDeliveryTime := none }],
    orderItems := [], menuItems := [], deliveries := [], users := [] }

/-- C8 witness: concrete run; the monthly figure counts only the delivered
order of May 2024 and the yearly figure both delivered orders. -/
theorem c8_revenue_witness :
    (computeStats c8Store "r1" ⟨2024, 5, 20⟩).revenueMonthly =
      sumBy (fun o => o.total)
        (c8Store.orders.filter (fun o =>
          o.restaurantId == "r1" && o.status == "delivered" &&
            (o.createdAt.year == (2024 : Nat) && o.createdAt.month == (5 : Nat)))) ∧
    (computeStats c8Store "r1" ⟨2024, 5, 20⟩).revenueMonthly = 10 ∧
    (computeStats c8Store "r1" ⟨2024, 5, 20⟩).revenueYearly = 17 := by
  refine ⟨(c8_revenue c8Store "r1" ⟨2024, 5, 20⟩ (by decide) (by decide)).1, ?_, ?_⟩
  · simp [computeStats, c8Store, sumBy, sdBLE, startOfMonth]
  · simp [computeStats, c8Store, sumBy, sdBLE, startOfYear]
    norm_num

/-! Claim C7: the popular-items ranking and its enrichment. -/

/-- Enrichment preserves the group key. -/
theorem enrichPopular_id (s : Store) (items : List OrderItemRow) (k : String) :
    (enrichPopular s items k).id = k := by
  unfold enrichPopular
  cases findMenuItem s k <;> rfl

/-- Enrichment carries over the summed quantity. -/
theorem enrichPopular_totalSold (s : Store) (items : List OrderItemRow)
    (k : String) : (enrichPopular s items k).totalSold = totalQty items k := by
  unfold enrichPopular
  cases findMenuItem s k <;> rfl

/-- Enrichment carries over the summed subtotal. -/
theorem enrichPopular_totalRevenue (s : Store) (items : List OrderItemRow)
    (k : String) : (enrichPopular s items k).totalRevenue = totalSub items k := by
  unfold enrichPopular
  cases findMenuItem s k <;> rfl

/-- The ranked keys are pairwise ordered by summed quantity descending. -/
theorem popularKeys_sorted (s : Store) (rid : String) :
    List.Pairwise (qtyGE (deliveredItems s rid)) (popularKeys s rid) := by
  haveI : IsTotal String (qtyGE (deliveredItems s rid)) :=
    ⟨fun a b => Nat.le_total (totalQty (deliveredItems s rid) b)
      (totalQty (deliveredItems s rid) a)⟩
  haveI : IsTrans String (qtyGE (deliveredItems s rid)) :=
    ⟨fun _ _ _ hab hbc => le_trans hbc hab⟩
  unfold popularKeys
  exact List.Pairwise.sublist (List.take_sublist _ _)
    (List.sorted_insertionSort _ _)

/-- Concrete store with two menu items tied on summed quantity (2 each) but
with different summed subtotals (10 versus 99); item "a" appears first. -/
def c7Store : Store :=
  { restaurants := [{ id := "r1", ownerId := "own1" }],
    orders := [{ id := "o1", customerId := "c1", restaurantId := "r1",
                 status := "delivered", total := 10, createdAt := ⟨2024, 1, 10⟩,
                 actualDeliveryTime := none }],
    orderItems := [{ orderId := "o1", menuItemId := "a", quantity := 2, subtotal := 10 },
                   { orderId := "o1", menuItemId := "b", quantity := 2, subtotal := 99 }],
    menuItems := [{ id := "a", restaurantId := "r1", name := "Apple", price := 5,
                    image := none, isAvailable := true },
                  { id := "b", restaurantId := "r1", name := "Bun", price := 6,
                    image := none, isAvailable := true }],
    deliveries := [], users := [] }

/-- C7 counterexample: items "a" and "b" are tied on summed quantity and "b"
has the larger summed subtotal, so the claimed tie-break (subtotal
descending) would rank "b" first; the code's ranking (summed quantity
descending only, store order on ties) returns ["a", "b"], which differs from
the spec-worded ranking ["b", "a"]. -/
theorem c7_counterexample :
    totalQty (deliveredItems c7Store "r1") "a" =
      totalQty (deliveredItems c7Store "r1") "b" ∧
    totalSub (deliveredItems c7Store "r1") "a" <
      totalSub (deliveredItems c7Store "r1") "b" ∧
    (computeStats c7Store "r1" ⟨2024, 1, 15⟩).popularItems.map PopularItem.id =
      ["a", "b"] ∧
    popularKeysSpec c7Store "r1" = ["b", "a"] ∧
    (computeStats c7Store "r1" ⟨2024, 1, 15⟩).popularItems.map PopularItem.id ≠
      popularKeysSpec c7Store "r1" := by
  have h3 : (computeStats c7Store "r1" ⟨2024, 1, 15⟩).popularItems.map
      PopularItem.id = ["a", "b"] := by decide
  have h4 : popularKeysSpec c7Store "r1" = ["b", "a"] := by
    simp [popularKeysSpec, deliveredItems, findOrder, c7Store, dedupKeys,
      List.insertionSort, List.orderedInsert, specRankLT, totalQty, totalSub, sumBy,
      List.filter_cons, List.filter_nil, List.foldr_cons, List.foldr_nil,
      List.map_cons, List.map_nil, List.sum_cons, List.sum_nil]
    norm_num
  refine ⟨by decide, ?_, h3, h4, ?_⟩
  · simp [totalSub, sumBy, deliveredItems, findOrder, c7Store,
      List.filter_cons, List.filter_nil, List.foldr_cons, List.foldr_nil]
    norm_num
  · rw [h3, h4]
    decide

/-- C7 amended: popularItems holds at most five entries, ordered by summed
quantity descending (ties left in store order, with no subtotal or id
tie-break), and each entry carries the group's summed quantity and subtotal
together with the menu item's current name/price/image, or the placeholder
name "Unknown" with price 0 when the menu item no longer exists. -/
theorem c7_popular_items (s : Store) (rid : String) (asOf : SDate) :
    (computeStats s rid asOf).popularItems.length ≤ 5 ∧
    List.Pairwise (fun p q : PopularItem =>
        totalQty (deliveredItems s rid) q.id ≤ totalQty (deliveredItems s rid) p.id)
      (computeStats s rid asOf).popularItems ∧
    (∀ p ∈ (computeStats s rid asOf).popularItems,
      p.totalSold = totalQty (deliveredItems s rid) p.id ∧
      p.totalRevenue = totalSub (deliveredItems s rid) p.id ∧
      (∀ m, findMenuItem s p.id = some m →
        p.name = m.name ∧ p.price = m.price ∧ p.image = m.image) ∧
      (findMenuItem s p.id = none →
        p.name = "Unknown" ∧ p.price = 0 ∧ p.image = none)) := by
  refine ⟨?_, ?_, ?_⟩
  · simp only [computeStats, List.length_map, popularKeys, List.length_take]
    exact min_le_left _ _
  · simp only [computeStats]
    rw [List.pairwise_map]
    refine List.Pairwise.imp ?_ (popularKeys_sorted s rid)
    intro a b h
    rw [enrichPopular_id, enrichPopular_id]
    exact h
  · intro p hp
    simp only [computeStats] at hp
    obtain ⟨k, _hk, rfl⟩ := List.mem_map.mp hp
    refine ⟨?_, ?_, ?_, ?_⟩
    · rw [enrichPopular_id, enrichPopular_totalSold]
    · rw [enrichPopular_id, enrichPopular_totalRevenue]
    · intro m hm
      rw [enrichPopular_id] at hm
      simp [enrichPopular, hm]
    · intro hm
      rw [enrichPopular_id] at hm
      simp [enrichPopular, hm]

/-- C7 witness: concrete run; the first-ranked entry's totalSold equals the
summed quantity of its key, and the ranking length is within five. -/
theorem c7_popular_items_witness :
    (enrichPopular c7Store (deliveredItems c7Store "r1") "a").totalSold =
      totalQty (deliveredItems c7Store "r1") "a" ∧
    (computeStats c7Store "r1" ⟨2024, 1, 15⟩).popularItems.length ≤ 5 := by
  refine ⟨?_, (c7_popular_items c7Store "r1" ⟨2024, 1, 15⟩).1⟩
  have hk : "a" ∈ popularKeys c7Store "r1" := by decide
  have hmem : enrichPopular c7Store (deliveredItems c7Store "r1") "a" ∈
      (computeStats c7Store "r1" ⟨2024, 1, 15⟩).popularItems :=
    List.mem_map_of_mem _ hk
  have h := ((c7_popular_items c7Store "r1" ⟨2024, 1, 15⟩).2.2 _ hmem).1
  rw [enrichPopular_id] at h
  exact h

end Food
